import Mathlib

/-
  A shallow embedding of the plumbus request-dispatch engine
  (package plumbus, file plumbus.go, plus its test callers).

  Pure Go functions become Lean functions; the http.ResponseWriter is
  modelled as an explicit `Outcome` record accumulating the status code,
  body text, server-side log lines, an ordered trace of response-side
  events, whether the wrapped handler function was invoked, and whether
  the request goroutine panicked (a failed interface type assertion).

  Parts of the repository that are not under src/ (the generate package
  with CollectInfo, the Paths router, the ByMethod struct) are modelled
  from the spec; each such definition carries a doc comment starting
  with `Modelled from the spec:`.
-/

/-- A runtime Go value as seen by a handler argument slot: strings, ints,
    pointers (`ptrNil` is a nil pointer, `ptrSome v` points at `v`). -/
inductive Val where
  | unit
  | str (s : String)
  | int (n : Int)
  | ptrNil
  | ptrSome (v : Val)
deriving Repr, DecidableEq

/-- A Go error value. `http c m` is an error that implements the
    generate.HTTPError capability (ResponseCode() = c, Error() = m),
    e.g. one built by plumbus.Errorf; `plain m` is any other error
    (Error() = m), which does not carry a status. -/
inductive GoErr where
  | http (code : Nat) (msg : String)
  | plain (msg : String)
deriving Repr, DecidableEq

/-- err.Error() -/
def GoErr.errMsg : GoErr → String
  | .http _ m => m
  | .plain m => m

/-- The `err.(HTTPError)` type assertion: the status/message pair when the
    error carries a status, none otherwise. -/
def GoErr.asHTTP : GoErr → Option (Nat × String)
  | .http c m => some (c, m)
  | .plain _ => none

/-- An incoming request: method, URL path, parsed query parameters
    (url.Values, ordered), and the request body. `body = some v` is a
    body whose JSON decodes to `v`; `body = none` is an empty body
    (json.Decoder yields io.EOF on it). -/
structure Request where
  method : String
  path : String
  query : List (String × String)
  body : Option Val

/-- req.URL.Query().Get(name): first value bound to the name, "" when absent. -/
def Request.queryGet (req : Request) (name : String) : String :=
  match req.query.find? (fun p => p.1 = name) with
  | some p => p.2
  | none => ""

/-- Whether the parsed query has any value for the name. -/
def Request.queryHas (req : Request) (name : String) : Bool :=
  (req.query.find? (fun p => p.1 = name)).isSome

/-- An ordered response-side event: invocation of a result's
    ToResponse method, or the JSON encoding of the body result. -/
inductive Event where
  | toResp (i : Nat)
  | encodeBody (i : Nat)
deriving Repr, DecidableEq

/-- The observable outcome of serving one request: the response status
    and body, the server-side log, whether the handler function was
    invoked, the ordered response events, and a panic message when the
    request died on a failed type assertion instead of responding. -/
structure Outcome where
  status : Nat
  body : String
  log : List String
  called : Bool
  events : List Event
  panicked : Option String
deriving Repr, DecidableEq

/-- The response writer before anything is written (Go responds 200 with
    an empty body when a handler writes nothing). -/
def Outcome.init : Outcome :=
  { status := 200, body := "", log := [], called := false, events := [], panicked := none }

/-- http.Error(res, msg, code): sets the status and writes msg
    followed by a newline as a plain-text body. -/
def httpError (st : Outcome) (msg : String) (code : Nat) : Outcome :=
  { st with status := code, body := msg ++ "\n" }

/-- A runtime panic (failed interface type assertion): the request dies
    without producing a normal response. -/
def goPanic (st : Outcome) (msg : String) : Outcome :=
  { st with panicked := some msg }

/-- log.Printf("error handling request: '%v'\nrequest: %s %s", err, method, path) -/
def printRequestError (st : Outcome) (req : Request) (e : GoErr) : Outcome :=
  { st with log := st.log ++
      ["error handling request: '" ++ e.errMsg ++ "'" ++ "\n" ++
       "request: " ++ req.method ++ " " ++ req.path] }

/-- plumbus.ResponseError: a status-carrying error produces its own code
    and message; any other error is logged server-side and answered with
    a bare 500. -/
def ResponseError (st : Outcome) (req : Request) (e : GoErr) : Outcome :=
  match e.asHTTP with
  | some cm => httpError st cm.2 cm.1
  | none => httpError (printRequestError st req e) "" 500

/-- json.Decoder.Decode on the request body: an empty body fails with
    io.EOF, otherwise the decoded value. -/
def jsonDecode : Option Val → Except String Val
  | none => .error "EOF"
  | some v => .ok v

/-- One input type of the handler signature, as the dynamic adaptor uses
    it: the FromRequest capability of the (element) type's pointer method
    set, when implemented. -/
structure InputTy where
  fromRequest : Option (Request → Except GoErr Val)

/-- generate.Info: the execution plan fields read by
    infoToDynamicAdaptor. Index sentinels follow the source: -1 means
    "no such slot". -/
structure Info where
  Inputs : List InputTy
  RequestBodyIndex : Int
  IsPointer : List Bool
  LastIsError : Bool
  ResponseBodyIndex : Int

/-- One value returned by the handler, with the capabilities the result
    loop may assert on it: whether it is of error kind (and its content,
    none = nil), its ToResponse behavior when the capability is
    implemented, and what json.Encoder.Encode writes for it. -/
structure ResultVal where
  isErrorKind : Bool
  errContent : Option GoErr
  toResp : Option (Except GoErr Unit)
  encoded : Except String String

/-- The argument-building loop of infoToDynamicAdaptor: for input i,
    either decode the request body into it (when i is the body slot),
    or — pointer input — allocate the pointee and run FromRequest on the
    pointer, or — required input — run FromRequest on the value's
    address. A missing FromRequest capability is a failed interface
    type assertion (runtime panic). -/
def buildArg (info : Info) (req : Request) (st : Outcome) (typ : InputTy)
    (i : Nat) : Except Outcome Val :=
  if (i : Int) = info.RequestBodyIndex then
    match jsonDecode req.body with
    | .error m => .error (httpError st ("error decoding json: " ++ m) 400)
    | .ok v => .ok v
  else if info.IsPointer.getD i false then
    match typ.fromRequest with
    | none => .error (goPanic st "interface conversion: type does not implement plumbus.FromRequest")
    | some f =>
      match f req with
      | .error e => .error (ResponseError st req e)
      | .ok v => .ok (Val.ptrSome v)
  else
    match typ.fromRequest with
    | none => .error (goPanic st "interface conversion: type does not implement plumbus.FromRequest")
    | some f =>
      match f req with
      | .error e => .error (ResponseError st req e)
      | .ok v => .ok v

/-- The loop over all inputs: each argument is built in order and the
    first failure aborts the whole request. -/
def buildArgs (info : Info) (req : Request) (st : Outcome) :
    List InputTy → Nat → Except Outcome (List Val)
  | [], _ => .ok []
  | typ :: rest, i =>
    match buildArg info req st typ i with
    | .error st => .error st
    | .ok arg =>
      match buildArgs info req st rest (i + 1) with
      | .error st => .error st
      | .ok args => .ok (arg :: args)

/-- The ToResponse loop over the (error-stripped) results: skip the body
    slot; every other result is asserted to ToResponse and invoked in
    order; a returned error short-circuits through ResponseError.
    `.error st` is an early return with final outcome st. -/
def toResponseLoop (info : Info) (req : Request) :
    Outcome → List ResultVal → Nat → Except Outcome Outcome
  | st, [], _ => .ok st
  | st, r :: rest, i =>
    if (i : Int) = info.ResponseBodyIndex then
      toResponseLoop info req st rest (i + 1)
    else
      match r.toResp with
      | none => .error (goPanic st "interface conversion: type does not implement plumbus.ToResponse")
      | some res =>
        match res with
        | .ok _ =>
          toResponseLoop info req
            { st with events := st.events ++ [Event.toResp i] } rest (i + 1)
        | .error e =>
          .error (ResponseError { st with events := st.events ++ [Event.toResp i] } req e)

/-- After the error slot is handled: run the ToResponse loop, then — if a
    body slot is designated — JSON-encode that result into the response
    (an encode failure is logged and answered 500). -/
def processOutputs (info : Info) (req : Request) (st : Outcome)
    (results : List ResultVal) : Outcome :=
  match toResponseLoop info req st results 0 with
  | .error st => st
  | .ok st =>
    if info.ResponseBodyIndex = -1 then st
    else
      match results[info.ResponseBodyIndex.toNat]? with
      | none => goPanic st "runtime error: index out of range"
      | some r =>
        match r.encoded with
        | .ok s =>
          { st with body := st.body ++ s,
                    events := st.events ++ [Event.encodeBody info.ResponseBodyIndex.toNat] }
        | .error m =>
          httpError { st with log := st.log ++ ["json encoding error: " ++ m] } "" 500

/-- Result processing of infoToDynamicAdaptor: when the last result is
    the error slot, pop it and check it for non-nil-ness first — a
    non-nil error short-circuits everything else through ResponseError;
    then the remaining results go through processOutputs. -/
def processResults (info : Info) (req : Request) (st : Outcome)
    (results : List ResultVal) : Outcome :=
  if info.LastIsError then
    match results.getLast? with
    | none => goPanic st "runtime error: index out of range"
    | some last =>
      if last.isErrorKind then
        match last.errContent with
        | some e => ResponseError st req e
        | none => processOutputs info req st results.dropLast
      else goPanic st "interface conversion: value is not an error"
  else processOutputs info req st results

/-- plumbus.infoToDynamicAdaptor: the per-request function produced for a
    plan and a concrete handler — build the arguments (aborting on any
    failure before the handler runs), invoke the handler, process the
    results. -/
def infoToDynamicAdaptor (info : Info) (handler : List Val → List ResultVal)
    (req : Request) : Outcome :=
  match buildArgs info req Outcome.init info.Inputs 0 with
  | .error st => st
  | .ok args => processResults info req { Outcome.init with called := true } (handler args)

/-- Modelled from the spec: generate.CollectInfo (not in src/) resolves
    capability applicability at plan-build time (§9: "a type's
    applicability is resolved once during plan building"): every
    non-body input must implement the FromRequest capability. This is the
    per-index check, walking the inputs exactly as buildArgs does. -/
def inputsOK (info : Info) : List InputTy → Nat → Bool
  | [], _ => true
  | typ :: rest, i =>
    (decide ((i : Int) = info.RequestBodyIndex) || typ.fromRequest.isSome)
      && inputsOK info rest (i + 1)

/-- Modelled from the spec: the plan validity check of generate.CollectInfo. -/
def collectInfoOK (info : Info) : Bool :=
  inputsOK info info.Inputs 0

/-- Modelled from the spec: generate.CollectInfo returns the plan for a
    supported signature and a configuration error for an unsupported one
    (a required parameter whose type lacks the extract-from-request
    capability). -/
def collectInfo (raw : Info) : Except String Info :=
  if collectInfoOK raw then .ok raw
  else .error "unsupported signature: parameter type does not implement plumbus.FromRequest"

/-- reflect.Type of a registered function: an identity for cache lookup
    plus the introspectable signature data CollectInfo reads from it. -/
structure Sig where
  id : Nat
  raw : Info

/-- A typed function value passed to HandlerFunc: its reflect.Type and
    its behavior on fully built argument lists. -/
structure Handler where
  sig : Sig
  fn : List Val → List ResultVal

/-- plumbus.adaptorFunc. `.error m` models the build-time panic(err)
    raised inside the adaptor closure. -/
abbrev AdaptorFn : Type :=
  Handler → Except String (Request → Outcome)

/-- plumbus.makeDynamicAdaptor: check the value's type against the
    introspected one, run CollectInfo (panicking on a configuration
    error), and wrap the handler with the plan's dynamic adaptor. -/
def makeDynamicAdaptor (typ : Sig) : AdaptorFn :=
  fun handler =>
    if handler.sig.id ≠ typ.id then
      .error "internal plumbus error. Mismatch of types."
    else
      match collectInfo typ.raw with
      | .error e => .error e
      | .ok info => .ok (infoToDynamicAdaptor info handler.fn)

/-- The package-level `adaptors` map, keyed by reflect.Type identity. -/
abbrev Cache : Type :=
  List (Nat × AdaptorFn)

/-- Go map lookup `adaptors[typ]` (a later insert shadows an earlier one). -/
def lookupA : Cache → Nat → Option AdaptorFn
  | [], _ => none
  | kv :: rest, k => if kv.1 = k then some kv.2 else lookupA rest k

/-- Go map assignment `adaptors[typ] = adaptor`. -/
def insertA (cache : Cache) (k : Nat) (a : AdaptorFn) : Cache :=
  (k, a) :: cache

/-- plumbus.RegisterAdaptor: pre-register a (generated) adaptor for a
    signature so HandlerFunc never introspects it. -/
def RegisterAdaptor (cache : Cache) (k : Nat) (a : AdaptorFn) : Cache :=
  insertA cache k a

/-- Modelled from the spec: the ByMethod struct (not in src/) maps HTTP
    method names to already-compiled handlers; absent fields are nil. -/
structure ByMethod where
  GET : Option (Request → Outcome) := none
  PUT : Option (Request → Outcome) := none
  POST : Option (Request → Outcome) := none
  DELETE : Option (Request → Outcome) := none

/-- Modelled from the spec: exact-name method lookup of ByMethod — no
    fallback or default method. -/
def ByMethod.lookupMethod (b : ByMethod) : String → Option (Request → Outcome)
  | "GET" => b.GET
  | "PUT" => b.PUT
  | "POST" => b.POST
  | "DELETE" => b.DELETE
  | _ => none

/-- Modelled from the spec: ByMethod.compile — look up the exact request
    method; if no handler is registered for it, respond 405 Method Not
    Allowed. -/
def ByMethod.compile (b : ByMethod) : Request → Outcome :=
  fun req =>
    match b.lookupMethod req.method with
    | some h => h req
    | none => { Outcome.init with status := 405 }

/-- The interface value accepted by plumbus.HandlerFunc: a raw
    func(http.ResponseWriter, *http.Request) or http.Handler, a ByMethod
    wrapper, a typed function, or any non-function value (described by
    its type name). -/
inductive HandlerArg where
  | raw (h : Request → Outcome)
  | byMethod (b : ByMethod)
  | fn (h : Handler)
  | nonFunction (typeName : String)

/-- A Go panic value: the source panics with plain strings in some
    places and with error values in others, and ServeMux.Handle treats
    the two differently. -/
inductive PanicVal where
  | strv (s : String)
  | errv (s : String)
deriving Repr, DecidableEq

/-- The observable result of one HandlerFunc call: the compiled handler
    (or the panic that escaped), the adaptors map afterwards, and
    whether the slow-reflection warning was logged (i.e. the
    introspection path ran). -/
structure HFResult where
  result : Except PanicVal (Request → Outcome)
  cache : Cache
  warned : Bool

/-- Applying an adaptorFunc to the handler value; a build failure inside
    the closure is a panic with an error value. -/
def adaptApply (a : AdaptorFn) (h : Handler) : Except PanicVal (Request → Outcome) :=
  match a h with
  | .error m => .error (.errv m)
  | .ok f => .ok f

/-- plumbus.HandlerFunc: raw handlers and ByMethod wrappers pass
    through; a non-function value panics (with a string); a typed
    function is compiled through the adaptors cache — a hit bypasses
    introspection, a miss logs the slow-reflection warning, builds the
    dynamic adaptor and stores it. -/
def HandlerFunc (cache : Cache) : HandlerArg → HFResult
  | .raw h => ⟨.ok h, cache, false⟩
  | .byMethod b => ⟨.ok b.compile, cache, false⟩
  | .nonFunction typeName =>
    ⟨.error (.strv ("plumbus.HandlerFunc called on non-function type " ++ typeName)),
     cache, false⟩
  | .fn h =>
    match lookupA cache h.sig.id with
    | some adaptor => ⟨adaptApply adaptor h, cache, false⟩
    | none =>
      let adaptor := makeDynamicAdaptor h.sig
      ⟨adaptApply adaptor h, insertA cache h.sig.id adaptor, true⟩

/-- Splitting a character list at every "/" (the pieces, in order,
    separators dropped). -/
def splitSegsAux : List Char → List (List Char)
  | [] => [[]]
  | c :: rest =>
    if c = '/' then [] :: splitSegsAux rest
    else
      match splitSegsAux rest with
      | [] => [[c]]
      | seg :: segs => (c :: seg) :: segs

/-- Path patterns and request paths split into non-empty segments at "/". -/
def splitSegs (s : String) : List (List Char) :=
  (splitSegsAux s.toList).filter (fun seg => seg ≠ [])

/-- Whether a pattern segment is a named capture (starts with ":"). -/
def isCapture : List Char → Bool
  | c :: _ => c = ':'
  | [] => false

/-- Modelled from the spec: segment matching of the Paths router (not in
    src/) — a segment starting with ":" is a named capture matching any
    single non-empty request segment and binding its value under the
    name after the colon; every other segment must match literally;
    segment counts must agree. -/
def segMatch : List (List Char) → List (List Char) → Option (List (String × String))
  | [], [] => some []
  | p :: ps, r :: rs =>
    if isCapture p then
      if r ≠ [] then
        match segMatch ps rs with
        | some binds => some ((String.mk (p.drop 1), String.mk r) :: binds)
        | none => none
      else none
    else if p = r then segMatch ps rs else none
  | _, _ => none

/-- Modelled from the spec: match one registered pattern against a
    request path, yielding the named-capture bindings. -/
def matchPath (pattern path : String) : Option (List (String × String)) :=
  segMatch (splitSegs pattern) (splitSegs path)

/-- The number of literal (non-capture) segments of a pattern, used for
    the most-specific-first tie-break. -/
def literalCount (pattern : String) : Nat :=
  ((splitSegs pattern).filter (fun seg => !isCapture seg)).length

/-- The routing table: pattern → compiled handler, in registration order. -/
abbrev Routes : Type :=
  List (String × (Request → Outcome))

/-- Modelled from the spec: choose among matching entries the one with
    the most literal segments (most specific first). -/
def bestMatch : List (Nat × (Request → Outcome) × List (String × String)) →
    Option ((Request → Outcome) × List (String × String))
  | [] => none
  | c :: rest =>
    match bestMatch rest with
    | none => some c.2
    | some best =>
      match rest.find? (fun r => c.1 < r.1) with
      | some _ => some best
      | none => some c.2

/-- Modelled from the spec: the router's dispatch — match the request
    path against the registered patterns, expose the named captures to
    Extractable types through the request's parsed query string, and
    respond 404 when nothing matches. -/
def ServeMuxServeHTTP (routes : Routes) (req : Request) : Outcome :=
  let candidates := routes.filterMap (fun e =>
    match matchPath e.1 req.path with
    | some binds => some (literalCount e.1, e.2, binds)
    | none => none)
  match bestMatch candidates with
  | none => { Outcome.init with status := 404 }
  | some hb => hb.1 { req with query := req.query ++ hb.2 }

/-- Modelled from the spec: Paths.Handle (not in src/) compiles the
    handler value through HandlerFunc and appends the route entry; a
    panic while compiling escapes before the entry is added. -/
def PathsHandle (cache : Cache) (routes : Routes) (route : String)
    (fn : HandlerArg) : Except PanicVal (Routes × Cache) :=
  match HandlerFunc cache fn with
  | ⟨.error p, _, _⟩ => .error p
  | ⟨.ok h, cache, _⟩ => .ok (routes ++ [(route, h)], cache)

/-- plumbus.ServeMux.Handle: delegates to Paths.Handle under a deferred
    recover. A recovered panic value that is an error is re-raised
    wrapped with the offending route; any other recovered value (such as
    the plain string HandlerFunc panics with) fails the type assertion
    in the deferred function, which then returns normally — the panic is
    swallowed and registration completes as if nothing happened. -/
def ServeMuxHandle (cache : Cache) (routes : Routes) (route : String)
    (fn : HandlerArg) : Except PanicVal (Routes × Cache) :=
  match PathsHandle cache routes route fn with
  | .ok rc => .ok rc
  | .error (.errv m) => .error (.errv ("Error while routing " ++ route ++ ": " ++ m))
  | .error (.strv _) => .ok (routes, cache)

/- Helper lemmas about field preservation of the response helpers. -/

theorem httpError_called (st : Outcome) (m : String) (c : Nat) :
    (httpError st m c).called = st.called := rfl

theorem httpError_panicked (st : Outcome) (m : String) (c : Nat) :
    (httpError st m c).panicked = st.panicked := rfl

theorem ResponseError_called (st : Outcome) (req : Request) (e : GoErr) :
    (ResponseError st req e).called = st.called := by
  cases e <;> rfl

theorem ResponseError_panicked (st : Outcome) (req : Request) (e : GoErr) :
    (ResponseError st req e).panicked = st.panicked := by
  cases e <;> rfl

theorem ResponseError_events (st : Outcome) (req : Request) (e : GoErr) :
    (ResponseError st req e).events = st.events := by
  cases e <;> rfl

theorem ResponseError_http_status (st : Outcome) (req : Request) (c : Nat) (m : String) :
    (ResponseError st req (.http c m)).status = c := rfl

theorem ResponseError_plain_status (st : Outcome) (req : Request) (m : String) :
    (ResponseError st req (.plain m)).status = 500 := rfl

/- Shared concrete objects for the example scenarios. -/

/-- A plain GET / request with no query and an empty body. -/
def sampleReq : Request := { method := "GET", path := "/", query := [], body := none }

/-- A result value destined for the response-body slot. -/
def bodyRes (enc : String) : ResultVal :=
  { isErrorKind := false, errContent := none, toResp := none, encoded := .ok enc }

/-- A result value of error kind (content none = nil error). -/
def errRes (e : Option GoErr) : ResultVal :=
  { isErrorKind := true, errContent := e, toResp := none, encoded := .ok "" }

/-- A result value implementing ToResponse with the given behavior. -/
def respRes (r : Except GoErr Unit) : ResultVal :=
  { isErrorKind := false, errContent := none, toResp := some r, encoded := .ok "" }

/-- A handler body that ignores its arguments and returns no results,
    like func(...) {} in the tests. -/
def noopHandler : List Val → List ResultVal := fun _ => []

/-- C1's scenario: func() (string, error) returning a status-carrying
    error, as in TestReturnError. -/
def returnErrInfo : Info := ⟨[], -1, [], true, -1⟩

def returnErrHandler (e : GoErr) : List Val → List ResultVal :=
  fun _ => [bodyRes "\"\"", errRes (some e)]

/-- C1: for a handler invocation whose handler returns a non-nil error,
    a status-carrying error produces exactly its code with its message as
    the plain-text body (nothing logged), while an error without a status
    produces a 500 whose body carries no content of the message — the
    message appears only in the server-side log. -/
theorem C1_error_status_contract
    (info : Info) (handler : List Val → List ResultVal) (req : Request)
    (rs : List ResultVal) (lastR : ResultVal) (e : GoErr)
    (hie : info.LastIsError = true)
    (hin : info.Inputs = [])
    (hr : handler [] = rs ++ [lastR])
    (hk : lastR.isErrorKind = true)
    (he : lastR.errContent = some e) :
    (∀ c m, e = GoErr.http c m →
      (infoToDynamicAdaptor info handler req).status = c ∧
      (infoToDynamicAdaptor info handler req).body = m ++ "\n" ∧
      (infoToDynamicAdaptor info handler req).log = []) ∧
    (∀ m, e = GoErr.plain m →
      (infoToDynamicAdaptor info handler req).status = 500 ∧
      (infoToDynamicAdaptor info handler req).body = "\n" ∧
      (infoToDynamicAdaptor info handler req).log =
        ["error handling request: '" ++ m ++ "'" ++ "\n" ++
         "request: " ++ req.method ++ " " ++ req.path]) := by
  have hb : buildArgs info req Outcome.init info.Inputs 0 = .ok [] := by
    rw [hin]; rfl
  have key : infoToDynamicAdaptor info handler req
      = ResponseError { Outcome.init with called := true } req e := by
    unfold infoToDynamicAdaptor
    rw [hb]
    unfold processResults
    rw [hie]
    simp only [if_true]
    rw [hr, List.getLast?_concat]
    simp only [hk, if_true, he]
  constructor
  · intro c m hcm
    subst hcm
    rw [key]
    exact ⟨rfl, rfl, rfl⟩
  · intro m hm2
    subst hm2
    rw [key]
    exact ⟨rfl, rfl, rfl⟩

/-- Witness for C1 at the TestReturnError scenario (plus a plain-error case). -/
theorem C1_error_status_contract_witness :
    (infoToDynamicAdaptor returnErrInfo (returnErrHandler (.http 400 "result")) sampleReq).status = 400 ∧
    (infoToDynamicAdaptor returnErrInfo (returnErrHandler (.http 400 "result")) sampleReq).body = "result\n" ∧
    (infoToDynamicAdaptor returnErrInfo (returnErrHandler (.plain "secret")) sampleReq).status = 500 ∧
    (infoToDynamicAdaptor returnErrInfo (returnErrHandler (.plain "secret")) sampleReq).body = "\n" := by
  have h1 := C1_error_status_contract returnErrInfo (returnErrHandler (.http 400 "result"))
    sampleReq [bodyRes "\"\""] (errRes (some (.http 400 "result"))) (.http 400 "result")
    rfl rfl rfl rfl rfl
  have h2 := C1_error_status_contract returnErrInfo (returnErrHandler (.plain "secret"))
    sampleReq [bodyRes "\"\""] (errRes (some (.plain "secret"))) (.plain "secret")
    rfl rfl rfl rfl rfl
  exact ⟨(h1.1 400 "result" rfl).1, (h1.1 400 "result" rfl).2.1,
         (h2.2 "secret" rfl).1, (h2.2 "secret" rfl).2.1⟩

/-- C10's scenario: a plan whose input 0 is the body slot (pointer-typed,
    as in TestRequestBody's func(body *Body)). -/
def bodyPtrInfo : Info := ⟨[⟨none⟩], 0, [true], false, -1⟩

/-- C10: when the plan designates a request-body parameter (here at
    index 0), a request with an empty body is rejected with 400 and the
    JSON decode error message, the handler is never invoked, and the
    result does not depend on IsPointer — the body slot is decoded
    unconditionally, with no optional-pointer fallback. -/
theorem C10_body_decoded_unconditionally
    (info : Info) (handler : List Val → List ResultVal) (req : Request)
    (t : InputTy) (rest : List InputTy)
    (hin : info.Inputs = t :: rest)
    (hbi : info.RequestBodyIndex = 0)
    (hbody : req.body = none) :
    infoToDynamicAdaptor info handler req
      = httpError Outcome.init "error decoding json: EOF" 400 ∧
    (infoToDynamicAdaptor info handler req).status = 400 ∧
    (infoToDynamicAdaptor info handler req).body = "error decoding json: EOF" ++ "\n" ∧
    (infoToDynamicAdaptor info handler req).called = false ∧
    (∀ bs : List Bool, infoToDynamicAdaptor { info with IsPointer := bs } handler req
      = httpError Outcome.init "error decoding json: EOF" 400) := by
  have key : ∀ inf : Info, inf.Inputs = t :: rest → inf.RequestBodyIndex = 0 →
      infoToDynamicAdaptor inf handler req
        = httpError Outcome.init "error decoding json: EOF" 400 := by
    intro inf h1 h2
    unfold infoToDynamicAdaptor
    rw [h1]
    unfold buildArgs buildArg
    rw [h2, hbody]
    rfl
  have k0 := key info hin hbi
  refine ⟨k0, ?_, ?_, ?_, ?_⟩
  · rw [k0]; rfl
  · rw [k0]; rfl
  · rw [k0]; rfl
  · intro bs
    exact key { info with IsPointer := bs } hin hbi

/-- Witness for C10 at the TestRequestBody shape with an empty body. -/
theorem C10_body_decoded_unconditionally_witness :
    (infoToDynamicAdaptor bodyPtrInfo noopHandler sampleReq).status = 400 ∧
    (infoToDynamicAdaptor bodyPtrInfo noopHandler sampleReq).body
      = "error decoding json: EOF" ++ "\n" ∧
    (infoToDynamicAdaptor bodyPtrInfo noopHandler sampleReq).called = false := by
  have h := C10_body_decoded_unconditionally bodyPtrInfo noopHandler sampleReq
    ⟨none⟩ [] rfl rfl rfl
  exact ⟨h.2.1, h.2.2.1, h.2.2.2.1⟩

/-- Every failure of one argument-building step leaves the
    handler-invocation flag off and is either the 400 JSON-decode
    failure, a ResponseError on the extraction error, or a runtime panic
    on a missing FromRequest capability. -/
theorem buildArg_error_cases (info : Info) (req : Request)
    (t : InputTy) (i : Nat) (st : Outcome)
    (h : buildArg info req Outcome.init t i = .error st) :
    st.called = false ∧
    ((st.status = 400 ∧ st.panicked = none) ∨
     (∃ c m, st = ResponseError Outcome.init req (.http c m) ∧ st.status = c) ∨
     (∃ m, st = ResponseError Outcome.init req (.plain m) ∧ st.status = 500) ∨
     st.panicked ≠ none) := by
  have respCase : ∀ e : GoErr, (ResponseError Outcome.init req e).called = false ∧
      (((ResponseError Outcome.init req e).status = 400 ∧
        (ResponseError Outcome.init req e).panicked = none) ∨
       (∃ c m, ResponseError Outcome.init req e = ResponseError Outcome.init req (.http c m) ∧
         (ResponseError Outcome.init req e).status = c) ∨
       (∃ m, ResponseError Outcome.init req e = ResponseError Outcome.init req (.plain m) ∧
         (ResponseError Outcome.init req e).status = 500) ∨
       (ResponseError Outcome.init req e).panicked ≠ none) := by
    intro e
    cases e with
    | http c m => exact ⟨rfl, Or.inr (Or.inl ⟨c, m, rfl, rfl⟩)⟩
    | plain m => exact ⟨rfl, Or.inr (Or.inr (Or.inl ⟨m, rfl, rfl⟩))⟩
  unfold buildArg at h
  split at h
  · split at h
    · cases h
      exact ⟨rfl, Or.inl ⟨rfl, rfl⟩⟩
    · cases h
  · split at h
    · split at h
      · cases h
        exact ⟨rfl, Or.inr (Or.inr (Or.inr (by simp [goPanic])))⟩
      · split at h
        · cases h
          exact respCase _
        · cases h
    · split at h
      · cases h
        exact ⟨rfl, Or.inr (Or.inr (Or.inr (by simp [goPanic])))⟩
      · split at h
        · cases h
          exact respCase _
        · cases h

/-- Classification of every failure of the argument-building loop: the
    handler-invocation flag is still off, and the outcome is either the
    400 JSON-decode failure, a ResponseError on the extraction error
    (its carried status for a status-carrying error, 500 otherwise), or
    a runtime panic on a missing FromRequest capability. -/
theorem buildArgs_error_cases (info : Info) (req : Request)
    (l : List InputTy) (i : Nat) (st : Outcome)
    (h : buildArgs info req Outcome.init l i = .error st) :
    st.called = false ∧
    ((st.status = 400 ∧ st.panicked = none) ∨
     (∃ c m, st = ResponseError Outcome.init req (.http c m) ∧ st.status = c) ∨
     (∃ m, st = ResponseError Outcome.init req (.plain m) ∧ st.status = 500) ∨
     st.panicked ≠ none) := by
  induction l generalizing i with
  | nil => simp [buildArgs] at h
  | cons t rest ih =>
    rw [buildArgs] at h
    cases ha : buildArg info req Outcome.init t i with
    | error st2 =>
      rw [ha] at h
      cases h
      exact buildArg_error_cases info req t i _ ha
    | ok arg =>
      rw [ha] at h
      cases hrest : buildArgs info req Outcome.init rest (i + 1) with
      | error st2 =>
        rw [hrest] at h
        cases h
        exact ih (i + 1) hrest
      | ok args =>
        rw [hrest] at h
        cases h

/-- A plan with one required (value-typed, non-body) parameter whose
    FromRequest implementation fails with a plain (non-status-carrying)
    error. -/
def plainFailInfo : Info :=
  ⟨[⟨some (fun _ => .error (.plain "boom"))⟩], -1, [false], false, -1⟩

/-- Counterexample to C2 as stated: an argument-building failure (a
    required parameter whose extraction fails with an error that carries
    no status) produces a 500 response, not a 400-class one. The handler
    is indeed not invoked. -/
theorem C2_counterexample :
    (infoToDynamicAdaptor plainFailInfo noopHandler sampleReq).status = 500 ∧
    ¬(400 ≤ (infoToDynamicAdaptor plainFailInfo noopHandler sampleReq).status ∧
      (infoToDynamicAdaptor plainFailInfo noopHandler sampleReq).status ≤ 499) ∧
    (infoToDynamicAdaptor plainFailInfo noopHandler sampleReq).called = false := by
  refine ⟨rfl, ?_, rfl⟩
  intro hcontra
  have h5 : (infoToDynamicAdaptor plainFailInfo noopHandler sampleReq).status = 500 := rfl
  rw [h5] at hcontra
  omega

/-- C2 (amended): any failure while building the handler's arguments
    returns before the handler function is ever invoked; the response is
    400 for a request-body decode failure, while an extraction failure is
    translated by ResponseError — the error's carried status when it is
    status-carrying, and 500 otherwise (a missing FromRequest capability
    is a runtime panic rather than a response). -/
theorem C2_arg_failure_short_circuits
    (info : Info) (handler : List Val → List ResultVal) (req : Request) (st : Outcome)
    (h : buildArgs info req Outcome.init info.Inputs 0 = .error st) :
    infoToDynamicAdaptor info handler req = st ∧
    st.called = false ∧
    ((st.status = 400 ∧ st.panicked = none) ∨
     (∃ c m, st = ResponseError Outcome.init req (.http c m) ∧ st.status = c) ∨
     (∃ m, st = ResponseError Outcome.init req (.plain m) ∧ st.status = 500) ∨
     st.panicked ≠ none) := by
  have hcases := buildArgs_error_cases info req info.Inputs 0 st h
  refine ⟨?_, hcases.1, hcases.2⟩
  unfold infoToDynamicAdaptor
  rw [h]

/-- Witness for (amended) C2 at the concrete plain-error extractor. -/
theorem C2_arg_failure_short_circuits_witness :
    infoToDynamicAdaptor plainFailInfo noopHandler sampleReq
      = ResponseError Outcome.init sampleReq (.plain "boom") ∧
    (ResponseError Outcome.init sampleReq (.plain "boom")).called = false := by
  have h := C2_arg_failure_short_circuits plainFailInfo noopHandler sampleReq
    (ResponseError Outcome.init sampleReq (.plain "boom")) rfl
  exact ⟨h.1, h.2.1⟩

/-- The src test type Param: func (p *Param) FromRequest sets *p from
    the "param" query value and never fails. -/
def paramFromRequest : Request → Except GoErr Val :=
  fun req => .ok (.str (req.queryGet "param"))

/-- A plan with one optional (pointer-typed) parameter of type *Param. -/
def paramPtrInfo : Info := ⟨[⟨some paramFromRequest⟩], -1, [true], false, -1⟩

/-- The plan shape of TestOptionalRequestParam's handler
    func(a *amountQueryParam, food *foodQueryParam): two pointer-typed
    parameters whose types implement no FromRequest method. -/
def queryPtrInfo : Info := ⟨[⟨none⟩, ⟨none⟩], -1, [true, true], false, -1⟩

/-- C3 (evaluation at the failing input): the dynamic adaptor never
    leaves a pointer-typed parameter nil. With a *Param parameter and a
    request without the "param" query value, the argument is a non-nil
    pointer to the empty Param (the request succeeds with 200 but the
    handler cannot observe absence as nil); with TestOptionalRequestParam's
    own *amountQueryParam/*foodQueryParam parameters (no FromRequest
    method) the request dies on the interface conversion instead of
    succeeding with nil arguments. -/
theorem C3_pointer_param_never_nil :
    buildArgs paramPtrInfo sampleReq Outcome.init paramPtrInfo.Inputs 0
      = .ok [Val.ptrSome (Val.str "")] ∧
    Val.ptrSome (Val.str "") ≠ Val.ptrNil ∧
    (infoToDynamicAdaptor paramPtrInfo noopHandler sampleReq).status = 200 ∧
    (infoToDynamicAdaptor queryPtrInfo noopHandler sampleReq).panicked
      = some "interface conversion: type does not implement plumbus.FromRequest" ∧
    (infoToDynamicAdaptor queryPtrInfo noopHandler sampleReq).called = false := by
  exact ⟨rfl, by decide, rfl, rfl, rfl⟩

/-- The ToResponse events the loop emits for n results starting at index
    i: one per index, in order, skipping the response-body slot. -/
def shiftedToResps (info : Info) (i n : Nat) : List Event :=
  (((List.range n).map (fun j => i + j)).filter
    (fun k : Nat => !(decide ((k : Int) = info.ResponseBodyIndex)))).map Event.toResp

/-- The full expected event order of a successful request: the
    ToResponse writes for every non-body result in index order, then —
    last — the body encoding when a body slot is designated. -/
def expectedEvents (info : Info) (n : Nat) : List Event :=
  shiftedToResps info 0 n
    ++ (if info.ResponseBodyIndex = -1 then []
        else [Event.encodeBody info.ResponseBodyIndex.toNat])

theorem range_shift (i n : Nat) :
    (List.range (n + 1)).map (fun j => i + j)
      = i :: (List.range n).map (fun j => (i + 1) + j) := by
  rw [List.range_succ_eq_map, List.map_cons, List.map_map]
  refine congrArg₂ List.cons (Nat.add_zero i) ?_
  refine List.map_congr_left ?_
  intro j hj
  simp [Function.comp]
  omega

theorem shiftedToResps_succ (info : Info) (i n : Nat) :
    shiftedToResps info i (n + 1)
      = (if (i : Int) = info.ResponseBodyIndex then []
         else [Event.toResp i]) ++ shiftedToResps info (i + 1) n := by
  unfold shiftedToResps
  rw [range_shift]
  by_cases hc : ((i : Int) = info.ResponseBodyIndex)
  · simp [hc]
  · simp [hc]

/-- When every non-body result's ToResponse succeeds, the loop completes
    and appends exactly one ToResponse event per non-body index, in
    order. -/
theorem toResponseLoop_ok_of_all_ok (info : Info) (req : Request)
    (outs : List ResultVal) :
    ∀ (st : Outcome) (i : Nat),
    (∀ j r, outs[j]? = some r → ¬(((i + j : Nat) : Int) = info.ResponseBodyIndex) →
      r.toResp = some (Except.ok ())) →
    toResponseLoop info req st outs i
      = .ok { st with events := st.events ++ shiftedToResps info i outs.length } := by
  induction outs with
  | nil =>
    intro st i h
    simp [toResponseLoop, shiftedToResps]
  | cons r rest ih =>
    intro st i h
    rw [toResponseLoop]
    have hrest : ∀ j rr, rest[j]? = some rr →
        ¬((((i + 1) + j : Nat) : Int) = info.ResponseBodyIndex) →
        rr.toResp = some (Except.ok ()) := by
      intro j rr hj hne
      refine h (j + 1) rr (by simpa using hj) ?_
      intro hcontra
      apply hne
      have hnn : ((i + 1) + j : Nat) = i + (j + 1) := by omega
      rw [hnn]
      exact hcontra
    by_cases hc : ((i : Int) = info.ResponseBodyIndex)
    · rw [if_pos hc, ih st (i + 1) hrest, List.length_cons, shiftedToResps_succ,
        if_pos hc, List.nil_append]
    · rw [if_neg hc]
      have h0 : r.toResp = some (Except.ok ()) := by
        refine h 0 r (by simp) ?_
        simpa using hc
      rw [h0]
      show toResponseLoop info req { st with events := st.events ++ [Event.toResp i] }
             rest (i + 1)
          = .ok { st with events := st.events ++ shiftedToResps info i (r :: rest).length }
      rw [ih _ (i + 1) hrest, List.length_cons, shiftedToResps_succ, if_neg hc]
      simp [List.append_assoc]

/-- Shape of processOutputs once the ToResponse loop is known to have
    completed with outcome st2. -/
theorem processOutputs_of_loop_ok (info : Info) (req : Request)
    (st st2 : Outcome) (outs : List ResultVal)
    (hl : toResponseLoop info req st outs 0 = .ok st2) :
    processOutputs info req st outs
      = (if info.ResponseBodyIndex = -1 then st2
         else
           match outs[info.ResponseBodyIndex.toNat]? with
           | none => goPanic st2 "runtime error: index out of range"
           | some r =>
             match r.encoded with
             | .ok s =>
               { st2 with
                   body := st2.body ++ s
                   events := st2.events ++ [Event.encodeBody info.ResponseBodyIndex.toNat] }
             | .error m =>
               httpError { st2 with log := st2.log ++ ["json encoding error: " ++ m] }
                 "" 500) := by
  unfold processOutputs
  rw [hl]

/-- C4: outputs are processed in a strict order. (1) When the final
    return value is the error slot and is non-nil, the whole result
    processing short-circuits to the error response: no ToResponse
    output is written and no body is encoded (the event trace is empty).
    (2) Otherwise every remaining non-body output is written via
    ToResponse in index order, and the designated body output — if any —
    is encoded last: the event trace is exactly expectedEvents. -/
theorem C4_result_processing_order
    (info : Info) (handler : List Val → List ResultVal) (req : Request)
    (args : List Val)
    (hb : buildArgs info req Outcome.init info.Inputs 0 = .ok args) :
    (∀ (rs : List ResultVal) (lastR : ResultVal) (e : GoErr),
      info.LastIsError = true → handler args = rs ++ [lastR] →
      lastR.isErrorKind = true → lastR.errContent = some e →
      infoToDynamicAdaptor info handler req
        = ResponseError { Outcome.init with called := true } req e ∧
      (infoToDynamicAdaptor info handler req).events = []) ∧
    (∀ outs : List ResultVal,
      ((info.LastIsError = false ∧ handler args = outs) ∨
       (info.LastIsError = true ∧ ∃ lastR, handler args = outs ++ [lastR] ∧
          lastR.isErrorKind = true ∧ lastR.errContent = none)) →
      (∀ (j : Nat) (r : ResultVal), outs[j]? = some r →
        ¬((j : Int) = info.ResponseBodyIndex) →
        r.toResp = some (Except.ok ())) →
      (info.ResponseBodyIndex ≠ -1 →
        ∃ r s, outs[info.ResponseBodyIndex.toNat]? = some r ∧ r.encoded = Except.ok s) →
      (infoToDynamicAdaptor info handler req).events = expectedEvents info outs.length) := by
  have hA : infoToDynamicAdaptor info handler req
      = processResults info req { Outcome.init with called := true } (handler args) := by
    unfold infoToDynamicAdaptor
    rw [hb]
  constructor
  · intro rs lastR e hie hr hk he
    have key : infoToDynamicAdaptor info handler req
        = ResponseError { Outcome.init with called := true } req e := by
      rw [hA]
      unfold processResults
      rw [hie]
      simp only [if_true]
      rw [hr, List.getLast?_concat]
      simp only [hk, if_true, he]
    refine ⟨key, ?_⟩
    rw [key, ResponseError_events]
    rfl
  · intro outs houts hall hbody
    have hPO : infoToDynamicAdaptor info handler req
        = processOutputs info req { Outcome.init with called := true } outs := by
      rw [hA]
      unfold processResults
      rcases houts with ⟨hie, hr⟩ | ⟨hie, lastR, hr, hk, he⟩
      · rw [hie, hr]
        simp
      · rw [hie]
        simp only [if_true]
        rw [hr, List.getLast?_concat]
        simp only [hk, if_true, he]
        rw [List.dropLast_concat]
    have hall0 : ∀ (j : Nat) (r : ResultVal), outs[j]? = some r →
        ¬(((0 + j : Nat) : Int) = info.ResponseBodyIndex) →
        r.toResp = some (Except.ok ()) := by
      intro j r hj hne
      refine hall j r hj ?_
      intro hcontra
      apply hne
      rw [Nat.zero_add]
      exact hcontra
    have hloop := toResponseLoop_ok_of_all_ok info req outs
      { Outcome.init with called := true } 0 hall0
    have hPOeq := processOutputs_of_loop_ok info req _ _ outs hloop
    rw [hPO, hPOeq]
    by_cases hR : info.ResponseBodyIndex = -1
    · rw [if_pos hR]
      simp [expectedEvents, hR, Outcome.init]
    · rw [if_neg hR]
      obtain ⟨r, sEnc, hidx, henc⟩ := hbody hR
      simp only [hidx, henc]
      simp [expectedEvents, hR, Outcome.init]

/-- C4's concrete scenario: no inputs, error slot present, body slot at
    result index 0 and a Responsive result at index 1. -/
def ordInfo : Info := ⟨[], -1, [], true, 0⟩

def ordHandler : List Val → List ResultVal :=
  fun _ => [bodyRes "\"ok\"", respRes (.ok ()), errRes none]

/-- An error-returning variant of the same scenario for the
    short-circuit conjunct. -/
def ordErrHandler : List Val → List ResultVal :=
  fun _ => [bodyRes "\"ok\"", respRes (.ok ()), errRes (some (.http 403 "denied"))]

/-- Witness for C4: on the nil-error run the trace is exactly the
    ToResponse write of the non-body output followed by the body
    encoding; on the failing run the trace is empty and the response is
    the error's. -/
theorem C4_result_processing_order_witness :
    (infoToDynamicAdaptor ordInfo ordHandler sampleReq).events
      = [Event.toResp 1, Event.encodeBody 0] ∧
    (infoToDynamicAdaptor ordInfo ordErrHandler sampleReq).events = [] ∧
    (infoToDynamicAdaptor ordInfo ordErrHandler sampleReq).status = 403 := by
  have h1 := (C4_result_processing_order ordInfo ordHandler sampleReq [] rfl).2
    [bodyRes "\"ok\"", respRes (.ok ())]
    (Or.inr ⟨rfl, errRes none, rfl, rfl, rfl⟩)
    (by
      intro j r hj hne
      rcases j with _ | _ | j
      · exact (hne (by decide)).elim
      · simp at hj
        rw [← hj]
        rfl
      · simp at hj)
    (by
      intro _
      exact ⟨bodyRes "\"ok\"", "\"ok\"", rfl, rfl⟩)
  have h2 := (C4_result_processing_order ordInfo ordErrHandler sampleReq [] rfl).1
    [bodyRes "\"ok\"", respRes (.ok ())] (errRes (some (.http 403 "denied")))
    (.http 403 "denied") rfl rfl rfl rfl
  refine ⟨?_, h2.2, ?_⟩
  · rw [h1]
    rfl
  · rw [h2.1]
    rfl

/-- C5: the adaptor for a signature is built at most once. A cache hit
    (including one planted by RegisterAdaptor) returns the stored
    adaptorFunc with the cache untouched and without the introspection
    path running; a miss builds the dynamic adaptor, stores it, and any
    later call for the same signature reuses exactly the stored build;
    and building the plan for a signature twice is deterministic — the
    two adaptors give the same outcome on every request. -/
theorem C5_adaptor_cache_idempotent
    (cache : Cache) (h h2 : Handler) (a : AdaptorFn) (k : Nat) :
    (lookupA cache h.sig.id = some a →
      HandlerFunc cache (.fn h) = ⟨adaptApply a h, cache, false⟩) ∧
    (h.sig.id = k →
      HandlerFunc (RegisterAdaptor cache k a) (.fn h)
        = ⟨adaptApply a h, RegisterAdaptor cache k a, false⟩) ∧
    (lookupA cache h.sig.id = none →
      HandlerFunc cache (.fn h)
        = ⟨adaptApply (makeDynamicAdaptor h.sig) h,
           insertA cache h.sig.id (makeDynamicAdaptor h.sig), true⟩) ∧
    (lookupA cache h.sig.id = none → h2.sig.id = h.sig.id →
      HandlerFunc (HandlerFunc cache (.fn h)).cache (.fn h2)
        = ⟨adaptApply (makeDynamicAdaptor h.sig) h2,
           (HandlerFunc cache (.fn h)).cache, false⟩) ∧
    (∀ (sig : Sig) (f g : Request → Outcome) (req : Request),
      makeDynamicAdaptor sig h = .ok f → makeDynamicAdaptor sig h = .ok g →
      f req = g req) := by
  refine ⟨?_, ?_, ?_, ?_, ?_⟩
  · intro hhit
    simp only [HandlerFunc]
    rw [hhit]
  · intro hk
    simp only [HandlerFunc]
    have : lookupA (RegisterAdaptor cache k a) h.sig.id = some a := by
      unfold RegisterAdaptor insertA lookupA
      rw [if_pos hk.symm]
    rw [this]
  · intro hmiss
    simp only [HandlerFunc]
    rw [hmiss]
  · intro hmiss hsame
    have hcache : (HandlerFunc cache (.fn h)).cache
        = insertA cache h.sig.id (makeDynamicAdaptor h.sig) := by
      simp only [HandlerFunc]
      rw [hmiss]
    rw [hcache]
    simp only [HandlerFunc]
    have hhit : lookupA (insertA cache h.sig.id (makeDynamicAdaptor h.sig)) h2.sig.id
        = some (makeDynamicAdaptor h.sig) := by
      unfold insertA lookupA
      rw [if_pos hsame.symm]
    rw [hhit]
  · intro sig f g req hf hg
    rw [hf] at hg
    cases hg
    rfl

/-- C5's concrete scenario: a supported one-required-parameter signature. -/
def okSig : Sig := ⟨3, ⟨[⟨some paramFromRequest⟩], -1, [false], false, -1⟩⟩

def okHandler : Handler := ⟨okSig, noopHandler⟩

/-- Witness for C5: on an empty cache the first compilation introspects
    and stores; the second compilation of the same signature bypasses
    introspection and leaves the cache unchanged. -/
theorem C5_adaptor_cache_idempotent_witness :
    (HandlerFunc ([] : Cache) (.fn okHandler)).warned = true ∧
    (HandlerFunc (HandlerFunc ([] : Cache) (.fn okHandler)).cache (.fn okHandler)).warned
      = false ∧
    (HandlerFunc (HandlerFunc ([] : Cache) (.fn okHandler)).cache (.fn okHandler)).cache
      = (HandlerFunc ([] : Cache) (.fn okHandler)).cache := by
  have h := C5_adaptor_cache_idempotent ([] : Cache) okHandler okHandler
    (makeDynamicAdaptor okSig) 3
  have h3 := h.2.2.1 rfl
  have h4 := h.2.2.2.1 rfl rfl
  refine ⟨?_, ?_, ?_⟩
  · rw [h3]
  · rw [h4]
  · rw [h4]

/-- A signature whose plan building fails: a required parameter whose
    type has no FromRequest capability. -/
def badSig : Sig := ⟨7, ⟨[⟨none⟩], -1, [false], false, -1⟩⟩

def badHandler : Handler := ⟨badSig, noopHandler⟩

/-- C6: registering a non-function value panics inside HandlerFunc with
    a plain string naming the offending type — but ServeMux.Handle's
    deferred recover only re-raises recovered values that are errors, so
    the string panic is swallowed and registration returns normally with
    no route added and no error reported. An unsupported signature, by
    contrast, panics with an error value and is propagated wrapped with
    the offending route. -/
theorem C6_nonfunction_config_error_swallowed :
    (HandlerFunc ([] : Cache) (.nonFunction "int")).result
      = .error (.strv "plumbus.HandlerFunc called on non-function type int") ∧
    ServeMuxHandle [] [] "/x" (.nonFunction "int") = .ok ([], []) ∧
    ServeMuxHandle [] [] "/y" (.fn badHandler)
      = .error (.errv ("Error while routing /y: " ++
          "unsupported signature: parameter type does not implement plumbus.FromRequest")) := by
  exact ⟨rfl, rfl, rfl⟩

/-- The ToResponse loop never flips the handler-invocation flag
    (successful completion). -/
theorem toResponseLoop_called_ok (info : Info) (req : Request)
    (outs : List ResultVal) :
    ∀ (st : Outcome) (i : Nat) (o : Outcome),
    toResponseLoop info req st outs i = .ok o → o.called = st.called := by
  induction outs with
  | nil =>
    intro st i o ho
    rw [toResponseLoop] at ho
    cases ho
    rfl
  | cons r rest ih =>
    intro st i o ho
    rw [toResponseLoop] at ho
    split at ho
    · exact ih _ _ _ ho
    · split at ho
      · cases ho
      · split at ho
        · exact (ih _ _ _ ho).trans rfl
        · cases ho

/-- The ToResponse loop never flips the handler-invocation flag (early
    error return). -/
theorem toResponseLoop_called_err (info : Info) (req : Request)
    (outs : List ResultVal) :
    ∀ (st : Outcome) (i : Nat) (o : Outcome),
    toResponseLoop info req st outs i = .error o → o.called = st.called := by
  induction outs with
  | nil =>
    intro st i o ho
    rw [toResponseLoop] at ho
    cases ho
  | cons r rest ih =>
    intro st i o ho
    rw [toResponseLoop] at ho
    split at ho
    · exact ih _ _ _ ho
    · split at ho
      · cases ho
        rfl
      · split at ho
        · exact (ih _ _ _ ho).trans rfl
        · cases ho
          exact (ResponseError_called _ req _).trans rfl

/-- Output processing never flips the handler-invocation flag. -/
theorem processOutputs_called (info : Info) (req : Request) (st : Outcome)
    (outs : List ResultVal) :
    (processOutputs info req st outs).called = st.called := by
  unfold processOutputs
  cases hl : toResponseLoop info req st outs 0 with
  | error o =>
    simp only [hl]
    exact toResponseLoop_called_err info req outs st 0 o hl
  | ok o =>
    have hoc := toResponseLoop_called_ok info req outs st 0 o hl
    simp only [hl]
    split
    · exact hoc
    · split
      · exact hoc
      · split
        · exact hoc
        · exact hoc

/-- Result processing never flips the handler-invocation flag. -/
theorem processResults_called (info : Info) (req : Request) (st : Outcome)
    (results : List ResultVal) :
    (processResults info req st results).called = st.called := by
  unfold processResults
  split
  · split
    · rfl
    · split
      · split
        · exact ResponseError_called st req _
        · exact processOutputs_called info req st _
      · rfl
  · exact processOutputs_called info req st results

/-- When the per-index plan check passed for index i, the argument step
    at i cannot die on an interface conversion: any failure is a normal
    error response. -/
theorem buildArg_no_panic (info : Info) (req : Request)
    (t : InputTy) (i : Nat) (st : Outcome)
    (hok : (decide ((i : Int) = info.RequestBodyIndex) || t.fromRequest.isSome) = true)
    (h : buildArg info req Outcome.init t i = .error st) :
    st.panicked = none := by
  unfold buildArg at h
  split at h
  · split at h
    · cases h
      rfl
    · cases h
  · next hc =>
    have hsome : t.fromRequest.isSome = true := by
      rw [Bool.or_eq_true, decide_eq_true_eq] at hok
      rcases hok with hok | hok
      · exact absurd hok hc
      · exact hok
    split at h
    · split at h
      · next x heq =>
        rw [heq] at hsome
        cases hsome
      · split at h
        · cases h
          exact ResponseError_panicked Outcome.init req _
        · cases h
    · split at h
      · next x heq =>
        rw [heq] at hsome
        cases hsome
      · split at h
        · cases h
          exact ResponseError_panicked Outcome.init req _
        · cases h

/-- When the plan check passed for the whole input list, no
    argument-building failure is a panic. -/
theorem buildArgs_no_panic (info : Info) (req : Request) (l : List InputTy) :
    ∀ (i : Nat) (st : Outcome), inputsOK info l i = true →
    buildArgs info req Outcome.init l i = .error st → st.panicked = none := by
  induction l with
  | nil =>
    intro i st _ h
    rw [buildArgs] at h
    cases h
  | cons t rest ih =>
    intro i st hok h
    rw [inputsOK, Bool.and_eq_true] at hok
    rw [buildArgs] at h
    split at h
    · cases h
      exact buildArg_no_panic info req t i _ hok.1 (by assumption)
    · split at h
      · cases h
        exact ih (i + 1) _ hok.2 (by assumption)
      · cases h

/-- C9: a required (value-typed, non-body) parameter whose type lacks
    the FromRequest capability is a configuration error reported when
    the plan is built (makeDynamicAdaptor fails during registration);
    for any plan that CollectInfo accepted, no request can die on a
    per-request capability type assertion while the arguments are
    built — every request either reaches the handler or is answered
    with a normal (non-panic) error response. -/
theorem C9_required_capability_checked_at_build
    (raw info : Info) (handler : List Val → List ResultVal) (req : Request) :
    (collectInfoOK raw = false →
      ∀ (sig : Sig) (hv : Handler), sig.raw = raw → hv.sig.id = sig.id →
        makeDynamicAdaptor sig hv
          = .error "unsupported signature: parameter type does not implement plumbus.FromRequest") ∧
    (collectInfo raw = .ok info →
      (infoToDynamicAdaptor info handler req).called = true ∨
      ((infoToDynamicAdaptor info handler req).panicked = none ∧
       (infoToDynamicAdaptor info handler req).called = false)) := by
  constructor
  · intro hbad sig hv hraw hid
    unfold makeDynamicAdaptor
    rw [if_neg (by simp [hid])]
    rw [hraw]
    unfold collectInfo
    rw [hbad]
    rfl
  · intro hok
    have hinfo : collectInfoOK info = true ∧ info = raw := by
      unfold collectInfo at hok
      by_cases hco : collectInfoOK raw
      · rw [if_pos hco] at hok
        cases hok
        exact ⟨hco, rfl⟩
      · rw [if_neg hco] at hok
        cases hok
    unfold infoToDynamicAdaptor
    cases hb : buildArgs info req Outcome.init info.Inputs 0 with
    | ok args =>
      left
      rw [processResults_called]
    | error st =>
      right
      refine ⟨?_, (buildArgs_error_cases info req info.Inputs 0 st hb).1⟩
      exact buildArgs_no_panic info req info.Inputs 0 st hinfo.1 hb

/-- Witness for C9: the bad one-required-parameter signature is rejected
    at build time; the accepted plain-error plan answers without
    panicking. -/
theorem C9_required_capability_checked_at_build_witness :
    makeDynamicAdaptor badSig badHandler
      = .error "unsupported signature: parameter type does not implement plumbus.FromRequest" ∧
    ((infoToDynamicAdaptor plainFailInfo noopHandler sampleReq).called = true ∨
     ((infoToDynamicAdaptor plainFailInfo noopHandler sampleReq).panicked = none ∧
      (infoToDynamicAdaptor plainFailInfo noopHandler sampleReq).called = false)) := by
  constructor
  · exact (C9_required_capability_checked_at_build badSig.raw badSig.raw noopHandler
      sampleReq).1 rfl badSig badHandler rfl rfl
  · exact (C9_required_capability_checked_at_build plainFailInfo plainFailInfo noopHandler
      sampleReq).2 rfl

/-- The src test type userId: func (ui *userId) FromRequest reads the
    "userId" query value (which the router populates from the matched
    path segment). -/
def userIdFromRequest : Request → Except GoErr Val :=
  fun req => .ok (.str (req.queryGet "userId"))

/-- The plan of TestPathParams's handler func(id userId): one required
    extractable input whose value is echoed as the response body. -/
def userIdInfo : Info := ⟨[⟨some userIdFromRequest⟩], -1, [false], false, 0⟩

def valToStr : Val → String
  | .str s => s
  | _ => ""

def userIdHandler : List Val → List ResultVal :=
  fun args =>
    [{ isErrorKind := false, errContent := none, toResp := none,
       encoded := .ok (valToStr (args.headD Val.unit)) }]

/-- The router table of TestPathParams: the single pattern
    /user/:userId/name. -/
def userRoutes : Routes :=
  [("/user/:userId/name", infoToDynamicAdaptor userIdInfo userIdHandler)]

def userReq : Request :=
  { method := "GET", path := "/user/10/name", query := [], body := none }

/-- C7: the pattern /user/:userId/name matches the request path
    /user/10/name, binding userId to "10" — and only paths whose literal
    segments agree (same segment count, "user"/"name" literal) match at
    all. Dispatching through the router, the handler's Extractable
    parameter observes the bound value "10" (echoed here as the response
    body). -/
theorem C7_path_capture_binding :
    matchPath "/user/:userId/name" "/user/10/name" = some [("userId", "10")] ∧
    matchPath "/user/:userId/name" "/user/10/email" = none ∧
    matchPath "/user/:userId/name" "/user/10" = none ∧
    matchPath "/user/:userId/name" "/account/10/name" = none ∧
    (ServeMuxServeHTTP userRoutes userReq).status = 200 ∧
    (ServeMuxServeHTTP userRoutes userReq).body = "10" ∧
    (ServeMuxServeHTTP userRoutes userReq).called = true ∧
    (ServeMuxServeHTTP userRoutes { userReq with path := "/nope" }).status = 404 := by
  refine ⟨?_, ?_, ?_, ?_, ?_, ?_, ?_, ?_⟩ <;> rfl

/-- The handler of TestRequestMethod's PUT entry: func() string
    returning "nachos", body-encoded. -/
def nachosHandler : Request → Outcome :=
  infoToDynamicAdaptor ⟨[], -1, [], false, 0⟩ (fun _ => [bodyRes "\"nachos\"\n"])

/-- The ByMethod value of TestRequestMethod: only a PUT handler. -/
def putOnly : ByMethod := { PUT := some nachosHandler }

/-- C8: ByMethod dispatches on the exact request method name: a
    registered method's handler runs (the PUT-only wrapper answers PUT
    with 200 and the handler's encoded output), any other method gets
    405 Method Not Allowed, with no fallback or default method; in
    general the compiled wrapper runs exactly the handler the lookup
    finds and answers 405 whenever the lookup finds none. -/
theorem C8_method_dispatch (m : String) (hm : m ≠ "PUT") :
    (∀ (b : ByMethod) (req : Request) (hh : Request → Outcome),
      b.lookupMethod req.method = some hh → ByMethod.compile b req = hh req) ∧
    (∀ (b : ByMethod) (req : Request),
      b.lookupMethod req.method = none →
      ByMethod.compile b req = { Outcome.init with status := 405 }) ∧
    (HandlerFunc ([] : Cache) (.byMethod putOnly)).result = .ok putOnly.compile ∧
    (ByMethod.compile putOnly { sampleReq with method := m }).status = 405 ∧
    (ByMethod.compile putOnly { sampleReq with method := "PUT" }).status = 200 ∧
    (ByMethod.compile putOnly { sampleReq with method := "PUT" }).body = "\"nachos\"\n" ∧
    (ByMethod.compile putOnly { sampleReq with method := "PUT" }).called = true := by
  refine ⟨?_, ?_, rfl, ?_, rfl, rfl, rfl⟩
  · intro b req hh hsome
    unfold ByMethod.compile
    rw [hsome]
  · intro b req hnone
    unfold ByMethod.compile
    rw [hnone]
  · have hnone : putOnly.lookupMethod m = none := by
      unfold ByMethod.lookupMethod
      split
      · rfl
      · exact absurd rfl hm
      · rfl
      · rfl
      · rfl
    unfold ByMethod.compile
    rw [hnone]

/-- Witness for C8 at the concrete GET request of TestRequestMethod. -/
theorem C8_method_dispatch_witness :
    (ByMethod.compile putOnly { sampleReq with method := "GET" }).status = 405 ∧
    ByMethod.compile putOnly { sampleReq with method := "PUT" }
      = nachosHandler { sampleReq with method := "PUT" } := by
  have h := C8_method_dispatch "GET" (by decide)
  exact ⟨h.2.2.2.1, h.1 putOnly { sampleReq with method := "PUT" } nachosHandler rfl⟩
